import Mathlib

/-!
Shallow embedding of the report-upload pipeline of
`obspy/scripts/runtests.py`: the function `upload_json_report` together
with its inline consent resolution (lines 120-123) and warning
deduplication (lines 125-128).

Python dicts are modelled as ordered association lists, because Python
dicts preserve insertion order and the deduplication expression
`tuple(d.items())` observes that order.  Effects (interactive prompts,
HTTP POST calls, console prints) are collected in an explicit trace;
exceptions are modelled as an error value returned alongside the effects
already performed and the final state of the caller's `data` argument
(Python mutates the dict in place, so the mutation survives a later
exception).
-/

/-- Scalar values a warning record or a parsed response body may hold
(the spec restricts warning-record values to scalars). -/
inductive Scalar where
  | str (s : String)
  | int (n : Int)
  | bool (b : Bool)
  | null
deriving DecidableEq, Repr

/-- Python `str()` of a scalar, as produced by `format` interpolation. -/
def pyStr : Scalar → String
  | .str s => s
  | .int n => toString n
  | .bool true => "True"
  | .bool false => "False"
  | .null => "None"

/-- A warning record: a Python dict of string keys to scalar values,
modelled as its ordered item list, i.e. exactly `list(d.items())`. -/
abbrev WarningRecord := List (String × Scalar)

/-- A value stored in the report dict `data`: the warnings list under the
key `"warnings"`, or any other (scalar) field passed through untouched. -/
inductive RVal where
  | warnList (ws : List WarningRecord)
  | scalar (s : Scalar)
deriving DecidableEq, Repr

/-- The report payload `data`: a Python dict, modelled as an ordered
association list. -/
abbrev Report := List (String × RVal)

/-- Reading `d[k]` on a Python dict: the binding of `k` (first match;
a real dict has unique keys). `none` models a raised `KeyError`. -/
def dictGet (d : List (String × α)) (k : String) : Option α :=
  match d with
  | [] => none
  | (k', v) :: t => if k' = k then some v else dictGet t k

/-- Writing `d[k] = v` on a Python dict: an existing key keeps its
position and receives the new value; a new key is appended at the end. -/
def dictSet (d : List (String × α)) (k : String) (v : α) : List (String × α) :=
  match d with
  | [] => [(k, v)]
  | (k', v') :: t => if k' = k then (k, v) :: t else (k', v') :: dictSet t k v

/-- The module-level constant `REPORT_URL = "tests.obspy.org"`. -/
def REPORT_URL : String := "tests.obspy.org"

/-- Embedding of the right-hand side of line 126-128,
`[dict(t) for t in set of tuple(d.items()) for d in data-warnings]`:
`tuple(d.items())` is the record's ordered pair list, the Python set
collapses equal tuples (its iteration order is implementation defined and
is modelled by `List.dedup`), and `dict(t)` rebuilds the record from its
ordered pair list unchanged. -/
def Normalize (ws : List WarningRecord) : List WarningRecord :=
  ws.dedup

/-- Python `s.lower()`; `Char.toLower` covers the basic latin range,
which is all this program compares against. -/
def pyLower (s : String) : String := ⟨s.data.map Char.toLower⟩

/-- The fixed interactive prompt of line 121, with `REPORT_URL`
interpolated. -/
def promptMsg : String :=
  "Do you want to report this to " ++ REPORT_URL ++ " ? [n]: "

/-- Lines 120-123: resolve consent.  Given the explicit `report` flag and
the string the interactive source would answer, return the decision
together with the list of prompts issued (empty when no input is read).
`answer.data.contains 'y'` is Python's substring test `'y' in answer` for
a one-character needle. -/
def resolveConsent (report : Option Bool) (userInput : String) :
    Bool × List String :=
  match report with
  | some b => (b, [])
  | none =>
    let answer := pyLower userInput
    (answer.data.contains 'y', [promptMsg])

/-- The HTTP response handed back by `requests.post`.  `jsonBody` is the
parse of the response body as a JSON object of scalars; `none` means the
body is unparsable, so `response.json()` raises. -/
structure HttpResponse where
  status_code : Nat
  reason : String
  jsonBody : Option (List (String × Scalar))
deriving DecidableEq, Repr

/-- External inputs of one run: what `input()` would return if called,
and the response `requests.post` would produce if called. -/
structure Env where
  userInput : String
  resp : HttpResponse
deriving DecidableEq, Repr

/-- One outbound `requests.post(url, json=body)` call; the `json=`
keyword serialises `body` and declares an `application/json` content
type. -/
structure PostCall where
  url : String
  contentType : String
  body : Report
deriving DecidableEq, Repr

/-- Request construction of `requests.post(url, json=data)`. -/
def requests_post (url : String) (jsonData : Report) : PostCall :=
  { url := url, contentType := "application/json", body := jsonData }

/-- The effects performed by one run. -/
structure Trace where
  prompts : List String
  posts : List PostCall
  output : List String
deriving DecidableEq, Repr

/-- Python exceptions that can escape `upload_json_report`:
subscripting `None` or a non-list warnings value (`TypeError`), a missing
`"warnings"` key (`KeyError`), or an unparsable response body in
`response.json()` (`json.JSONDecodeError`). -/
inductive PyErr where
  | typeError
  | keyError (k : String)
  | jsonDecodeError
deriving DecidableEq, Repr

/-- Result of a run: the effects performed, the caller's `data` binding
after the call (the dict is mutated in place, so a mutation survives a
later exception), and the exception that escaped, if any. -/
structure RunResult where
  trace : Trace
  finalData : Option Report
  err : Option PyErr
deriving DecidableEq, Repr

/-- Embedding of `upload_json_report(report=None, data=None)`
(lines 118-138 of `runtests.py`). -/
def upload_json_report (report : Option Bool) (data : Option Report)
    (env : Env) : RunResult :=
  let rc := resolveConsent report env.userInput
  if rc.1 then
    match data with
    | none =>
      { trace := ⟨rc.2, [], []⟩, finalData := none,
        err := some .typeError }
    | some d =>
      match dictGet d "warnings" with
      | none =>
        { trace := ⟨rc.2, [], []⟩, finalData := some d,
          err := some (.keyError "warnings") }
      | some (.scalar _) =>
        { trace := ⟨rc.2, [], []⟩, finalData := some d,
          err := some .typeError }
      | some (.warnList ws) =>
        let d' := dictSet d "warnings" (.warnList (Normalize ws))
        let post := requests_post ("https://" ++ REPORT_URL ++ "/post/v2/") d'
        if env.resp.status_code = 200 then
          match env.resp.jsonBody with
          | none =>
            { trace := ⟨rc.2, [post], []⟩, finalData := some d',
              err := some .jsonDecodeError }
          | some b =>
            let report_url := (dictGet b "url").getD (Scalar.str REPORT_URL)
            { trace := ⟨rc.2, [post],
                ["Your test results have been reported and are available at: "
                  ++ pyStr report_url ++ "\nThank you!"]⟩,
              finalData := some d', err := none }
        else
          { trace := ⟨rc.2, [post],
              ["Error: Could not sent a test report to " ++ REPORT_URL ++ ".",
               env.resp.reason]⟩,
            finalData := some d', err := none }
  else
    { trace := ⟨rc.2, [], []⟩, finalData := data, err := none }

/-- Substring test on character lists (Python's `in` on strings). -/
def subOf (needle : List Char) : List Char → Bool
  | [] => needle.isEmpty
  | c :: t => needle.isPrefixOf (c :: t) || subOf needle t

/-- Does `hay` contain `needle` as a contiguous substring? -/
def strContains (hay needle : String) : Bool :=
  subOf needle.data hay.data

/-- Full equality of all key/value pairs of two warning records
regardless of key order: each record's pairs all occur in the other. -/
def sameFields (a b : WarningRecord) : Prop :=
  (∀ p ∈ a, p ∈ b) ∧ (∀ p ∈ b, p ∈ a)

instance (a b : WarningRecord) : Decidable (sameFields a b) := by
  unfold sameFields; infer_instance

/-- The payload warnings a POST carries, when its body has a well-typed
`"warnings"` entry. -/
def payloadWarnings (p : PostCall) : Option (List WarningRecord) :=
  match dictGet p.body "warnings" with
  | some (.warnList ws) => some ws
  | _ => none


theorem dictGet_dictSet_self (d : List (String × α)) (k : String) (v : α) :
    dictGet (dictSet d k v) k = some v := by
  induction d with
  | nil => simp [dictGet, dictSet]
  | cons p t ih =>
    obtain ⟨k', v'⟩ := p
    by_cases hk : k' = k
    · simp [dictSet, hk, dictGet]
    · simp [dictSet, hk, dictGet, ih]

theorem dictGet_dictSet_ne (d : List (String × α)) (k k' : String) (v : α)
    (hne : k' ≠ k) :
    dictGet (dictSet d k v) k' = dictGet d k' := by
  induction d with
  | nil => simp [dictGet, dictSet, Ne.symm hne]
  | cons p t ih =>
    obtain ⟨ka, va⟩ := p
    by_cases hk : ka = k
    · subst hk
      simp [dictSet, dictGet, Ne.symm hne, hne]
    · simp only [dictSet, if_neg hk, dictGet]
      split <;> simp [ih]

theorem isPrefixOf_append_self (n b : List Char) :
    n.isPrefixOf (n ++ b) = true := by
  rw [List.isPrefixOf_iff_prefix]
  exact List.prefix_append n b

theorem subOf_nil_needle (hay : List Char) : subOf [] hay = true := by
  cases hay <;> simp [subOf]

theorem subOf_append (a n b : List Char) : subOf n (a ++ (n ++ b)) = true := by
  induction a with
  | nil =>
    cases hn : n ++ b with
    | nil => simp only [List.nil_append, hn, subOf]; simp [List.append_eq_nil.mp hn]
    | cons c t =>
      simp only [List.nil_append, hn, subOf]
      rw [← hn, isPrefixOf_append_self]
      rfl
  | cons c a' ih =>
    simp only [List.cons_append, subOf, List.append_eq]
    rw [ih]
    simp

theorem strContains_append (p n s : String) :
    strContains (p ++ n ++ s) n = true := by
  unfold strContains
  have hd : (p ++ n ++ s).data = p.data ++ (n.data ++ s.data) := by
    simp [List.append_assoc]
  rw [hd]
  exact subOf_append _ _ _

theorem toLower_eq_y_iff (c : Char) : c.toLower = 'y' ↔ c = 'y' ∨ c = 'Y' := by
  constructor
  · intro h
    simp only [Char.toLower] at h
    split at h
    · rename_i hr
      right
      have hv : (c.toNat + 32).isValidChar := Or.inl (by omega)
      have ht : (Char.ofNat (c.toNat + 32)).toNat = c.toNat + 32 := by
        rw [Char.ofNat, dif_pos hv]; rfl
      rw [h] at ht
      have hy : ('y').toNat = 121 := rfl
      rw [hy] at ht
      have hc : c.toNat = 89 := by omega
      have hofn := Char.ofNat_toNat c
      rw [hc] at hofn
      rw [← hofn]
    · exact Or.inl h
  · rintro (rfl | rfl) <;> decide

theorem count_eq_one_of_nodup_mem [BEq α] [LawfulBEq α] {l : List α} {a : α}
    (hn : List.Nodup l) (ha : a ∈ l) : l.count a = 1 := by
  induction l with
  | nil => simp at ha
  | cons b t ih =>
    rw [List.nodup_cons] at hn
    rcases List.mem_cons.mp ha with rfl | hat
    · rw [List.count_cons_self, List.count_eq_zero_of_not_mem hn.1]
    · have hab : a ≠ b := fun hab => hn.1 (hab ▸ hat)
      rw [List.count_cons_of_ne hab, ih hn.2 hat]

/-- A sample warning record with keys in insertion order a, b. -/
def cexW1 : WarningRecord := [("a", Scalar.int 1), ("b", Scalar.int 2)]

/-- The same key/value pairs as `cexW1`, inserted in the other order. -/
def cexW2 : WarningRecord := [("b", Scalar.int 2), ("a", Scalar.int 1)]

/-- C1 counterexample: the two records `cexW1` and `cexW2` carry exactly
the same key/value pairs (they differ only in key order), yet the
normalizer keeps both, so this distinct warning record appears twice in
the output rather than exactly once: deduplication works on the ordered
item tuple `tuple(d.items())`, which separates equal dicts whose keys were
inserted in different orders. -/
theorem C1_counterexample :
    sameFields cexW1 cexW2 ∧ cexW1 ≠ cexW2 ∧
    (Normalize [cexW1, cexW2]).countP
      (fun r => decide (sameFields r cexW1)) = 2 := by
  decide

/-- C1 (amended): the normalizer's output contains every element of the
input and nothing else, and each distinct record appears exactly once,
where distinctness is equality of the ordered key/value pair sequence
(records with the same pairs in a different key order count as distinct);
the empty sequence maps to the empty sequence. -/
theorem C1_theorem (ws : List WarningRecord) :
    (∀ w, w ∈ Normalize ws ↔ w ∈ ws) ∧
    (∀ w, w ∈ ws → (Normalize ws).count w = 1) ∧
    Normalize ([] : List WarningRecord) = [] := by
  refine ⟨fun w => List.mem_dedup, fun w hw => ?_, rfl⟩
  exact count_eq_one_of_nodup_mem (List.nodup_dedup ws) (List.mem_dedup.mpr hw)

/-- C1 witness: instantiation of the amended claim at a concrete
duplicated input. -/
theorem C1_witness : (Normalize [cexW1, cexW1]).count cexW1 = 1 :=
  (C1_theorem [cexW1, cexW1]).2.1 cexW1 (by decide)

/-- C2: with explicit consent false, the submitter performs no network
call, produces no console output (and no prompt), leaves the payload
untouched and raises nothing. -/
theorem C2_theorem (data : Option Report) (env : Env) :
    upload_json_report (some false) data env = ⟨⟨[], [], []⟩, data, none⟩ :=
  rfl

/-- C3: with an explicit flag the consent resolver returns it at once
without prompting; with the flag absent it prompts exactly once and
accepts precisely the responses containing the letter y in either case
(in particular the empty response resolves to false). -/
theorem C3_theorem (b : Bool) (input : String) :
    resolveConsent (some b) input = (b, []) ∧
    (resolveConsent none input).2 = [promptMsg] ∧
    ((resolveConsent none input).1 = true ↔
      ∃ c ∈ input.data, c = 'y' ∨ c = 'Y') := by
  refine ⟨rfl, rfl, ?_⟩
  show ((pyLower input).data.contains 'y' = true) ↔ _
  rw [show (pyLower input).data = input.data.map Char.toLower from rfl]
  rw [show ((input.data.map Char.toLower).contains 'y') =
    (input.data.map Char.toLower).elem 'y' from rfl]
  rw [List.elem_iff]
  constructor
  · intro h
    obtain ⟨c, hc, hcl⟩ := List.mem_map.mp h
    exact ⟨c, hc, (toLower_eq_y_iff c).mp hcl⟩
  · rintro ⟨c, hc, hcy⟩
    exact List.mem_map.mpr ⟨c, hc, (toLower_eq_y_iff c).mpr hcy⟩

/-- C3 witness: concrete instances, including the empty response. -/
theorem C3_witness :
    resolveConsent (some true) "whatever" = (true, []) ∧
    ((resolveConsent none "Yes").1 = true ↔
      ∃ c ∈ ("Yes" : String).data, c = 'y' ∨ c = 'Y') ∧
    ((resolveConsent none "").1 = true ↔
      ∃ c ∈ ("" : String).data, c = 'y' ∨ c = 'Y') :=
  ⟨(C3_theorem true "whatever").1, (C3_theorem true "Yes").2.2,
    (C3_theorem true "").2.2⟩

/-- C7: the normalizer is idempotent: a second application yields a
sequence set-equal to (indeed, equal to) the first application's output. -/
theorem C7_theorem (ws : List WarningRecord) (w : WarningRecord) :
    w ∈ Normalize (Normalize ws) ↔ w ∈ Normalize ws := by
  simp [Normalize, List.mem_dedup]

/-- C7 witness: concrete instance. -/
theorem C7_witness :
    cexW1 ∈ Normalize (Normalize [cexW1, cexW1]) ↔
      cexW1 ∈ Normalize [cexW1, cexW1] :=
  C7_theorem [cexW1, cexW1] cexW1

/-- A run environment whose response is a 503 with reason
Service Unavailable. -/
def env503 : Env := ⟨"", ⟨503, "Service Unavailable", none⟩⟩

/-- A minimal report payload with an empty warning list. -/
def emptyReport : Report := [("warnings", RVal.warnList [])]

/-- C4 counterexample: on a 503 response with reason Service Unavailable,
the failure output does contain the reason phrase and no exception
escapes, but it does not contain the numeric status 503 anywhere — the
code prints only the fixed error line and `response.reason`, never
`response.status_code`. -/
theorem C4_counterexample :
    (upload_json_report (some true) (some emptyReport) env503).err = none ∧
    strContains
      (String.intercalate "\n"
        (upload_json_report (some true) (some emptyReport) env503).trace.output)
      "Service Unavailable" = true ∧
    strContains
      (String.intercalate "\n"
        (upload_json_report (some true) (some emptyReport) env503).trace.output)
      "503" = false := by
  decide

/-- C4 (amended): for every response with status other than 200, the
submitter emits a failure message consisting of the fixed error line and
the HTTP reason phrase — the numeric status is not included — and no
exception escapes the call. -/
theorem C4_theorem (d : Report) (ws : List WarningRecord) (env : Env)
    (hw : dictGet d "warnings" = some (.warnList ws))
    (hs : env.resp.status_code ≠ 200) :
    (upload_json_report (some true) (some d) env).err = none ∧
    (upload_json_report (some true) (some d) env).trace.output =
      ["Error: Could not sent a test report to " ++ REPORT_URL ++ ".",
       env.resp.reason] := by
  simp [upload_json_report, resolveConsent, hw, hs]

/-- C4 witness: instantiation at the concrete 503 environment. -/
theorem C4_witness :
    (upload_json_report (some true) (some emptyReport) env503).err = none ∧
    (upload_json_report (some true) (some emptyReport) env503).trace.output =
      ["Error: Could not sent a test report to " ++ REPORT_URL ++ ".",
       "Service Unavailable"] :=
  C4_theorem emptyReport [] env503 rfl (by decide)

/-- An environment returning 200 with an unparsable body. -/
def env200bad : Env := ⟨"", ⟨200, "OK", none⟩⟩

/-- C5 counterexample: on a 200 response whose body is unparsable,
`response.json()` raises and the exception escapes the submitter — the
code does not degrade gracefully in this case (the fallback only covers a
parsable body with no url field). -/
theorem C5_counterexample :
    (upload_json_report (some true) (some emptyReport) env200bad).err =
      some PyErr.jsonDecodeError ∧
    (upload_json_report (some true) (some emptyReport) env200bad).trace.output =
      [] := by
  decide

/-- C5 (amended): for every 200 response whose body is unparsable as
structured data, the submitter raises (`response.json()`'s parse error
propagates) and displays nothing; graceful fallback to the bare host
happens only when the body parses but lacks a url field. -/
theorem C5_theorem (d : Report) (ws : List WarningRecord) (env : Env)
    (hw : dictGet d "warnings" = some (.warnList ws))
    (hs : env.resp.status_code = 200)
    (hb : env.resp.jsonBody = none) :
    (upload_json_report (some true) (some d) env).err =
      some PyErr.jsonDecodeError ∧
    (upload_json_report (some true) (some d) env).trace.output = [] := by
  simp [upload_json_report, resolveConsent, hw, hs, hb]

/-- C5 witness: instantiation at the concrete unparsable-body
environment. -/
theorem C5_witness :
    (upload_json_report (some true) (some emptyReport) env200bad).err =
      some PyErr.jsonDecodeError ∧
    (upload_json_report (some true) (some emptyReport) env200bad).trace.output =
      [] :=
  C5_theorem emptyReport [] env200bad rfl rfl rfl

/-- C6: for every 200 response with a parsable body, the emitted success
message contains the body's url value when present, and contains the bare
host name when absent; no exception escapes. -/
theorem C6_theorem (d : Report) (ws : List WarningRecord) (env : Env)
    (b : List (String × Scalar))
    (hw : dictGet d "warnings" = some (.warnList ws))
    (hs : env.resp.status_code = 200)
    (hb : env.resp.jsonBody = some b) :
    (upload_json_report (some true) (some d) env).err = none ∧
    (∀ v, dictGet b "url" = some v →
      (upload_json_report (some true) (some d) env).trace.output.any
        (fun l => strContains l (pyStr v)) = true) ∧
    (dictGet b "url" = none →
      (upload_json_report (some true) (some d) env).trace.output.any
        (fun l => strContains l REPORT_URL) = true) := by
  have hout : (upload_json_report (some true) (some d) env).trace.output =
      ["Your test results have been reported and are available at: "
        ++ pyStr ((dictGet b "url").getD (Scalar.str REPORT_URL))
        ++ "\nThank you!"] := by
    simp [upload_json_report, resolveConsent, hw, hs, hb]
  have herr : (upload_json_report (some true) (some d) env).err = none := by
    simp [upload_json_report, resolveConsent, hw, hs, hb]
  refine ⟨herr, ?_, ?_⟩
  · intro v hv
    rw [hout]
    simp only [List.any_cons, List.any_nil, Bool.or_false, hv, Option.getD_some]
    exact strContains_append _ _ _
  · intro hv
    rw [hout]
    simp only [List.any_cons, List.any_nil, Bool.or_false, hv, Option.getD_none]
    rw [show pyStr (Scalar.str REPORT_URL) = REPORT_URL from rfl]
    exact strContains_append _ _ _

/-- An environment returning 200 with a parsed body carrying a url. -/
def env200url : Env :=
  ⟨"", ⟨200, "OK", some [("url", Scalar.str "https://tests.example/r/42")]⟩⟩

/-- An environment returning 200 with a parsed body lacking a url. -/
def env200noUrl : Env := ⟨"", ⟨200, "OK", some [("other", Scalar.int 1)]⟩⟩

/-- C6 witness: concrete instantiations for a body with a url field and
for a body without one. -/
theorem C6_witness :
    (upload_json_report (some true) (some emptyReport) env200url).trace.output.any
      (fun l => strContains l (pyStr (Scalar.str "https://tests.example/r/42"))) =
      true ∧
    (upload_json_report (some true) (some emptyReport) env200noUrl).trace.output.any
      (fun l => strContains l REPORT_URL) = true :=
  ⟨(C6_theorem emptyReport [] env200url
      [("url", Scalar.str "https://tests.example/r/42")] rfl rfl rfl).2.1
      (Scalar.str "https://tests.example/r/42") rfl,
   (C6_theorem emptyReport [] env200noUrl [("other", Scalar.int 1)]
      rfl rfl rfl).2.2 (by decide)⟩

theorem payloadWarnings_requests_post (u : String) (d : Report)
    (ws : List WarningRecord) :
    payloadWarnings (requests_post u (dictSet d "warnings" (.warnList ws))) =
      some ws := by
  simp [payloadWarnings, requests_post, dictGet_dictSet_self]

/-- An environment returning 200 with an empty parsed body. -/
def env200empty : Env := ⟨"", ⟨200, "OK", some []⟩⟩

/-- C8 counterexample: with warnings `[cexW1, cexW2]` — the same
key/value pairs inserted in two different orders — exactly one POST is
issued and its transmitted warning sequence contains two entries that are
equal by full field-set equality: the payload is deduplicated only up to
ordered item tuples, so it can carry duplicates by field-set equality. -/
theorem C8_counterexample :
    sameFields cexW1 cexW2 ∧ cexW1 ≠ cexW2 ∧
    ((upload_json_report (some true)
        (some [("warnings", RVal.warnList [cexW1, cexW2])])
        env200empty).trace.posts.map
      (fun p => ((payloadWarnings p).getD []).countP
        (fun r => decide (sameFields r cexW1)))) = [2] := by
  decide


theorem posts_characterization (report : Option Bool) (data : Option Report)
    (env : Env) :
    (upload_json_report report data env).trace.posts = [] ∨
    ((resolveConsent report env.userInput).1 = true ∧
      ∃ d ws, data = some d ∧ dictGet d "warnings" = some (.warnList ws) ∧
        (upload_json_report report data env).trace.posts =
          [requests_post ("https://" ++ REPORT_URL ++ "/post/v2/")
            (dictSet d "warnings" (.warnList (Normalize ws)))]) := by
  by_cases hc : (resolveConsent report env.userInput).1 = true
  · rcases data with _ | d
    · left; simp [upload_json_report, hc]
    · rcases hw : dictGet d "warnings" with _ | v
      · left; simp [upload_json_report, hc, hw]
      · cases v with
        | warnList ws =>
          right
          refine ⟨hc, d, ws, rfl, hw, ?_⟩
          by_cases hs : env.resp.status_code = 200
          · rcases hb : env.resp.jsonBody with _ | b <;>
              simp [upload_json_report, hc, hw, hs, hb]
          · simp [upload_json_report, hc, hw, hs]
        | scalar s => left; simp [upload_json_report, hc, hw]
  · left; simp [upload_json_report, hc]

/-- C8 (amended): in every run at most one POST is issued, a POST occurs
only when consent resolves to yes, every POST targets the fixed
`/post/v2/` path on the fixed host with a JSON-typed body, and the
transmitted warning sequence has no duplicates by ordered key/value
sequence equality (records equal as sets of pairs but differing in key
order may both appear). -/
theorem C8_theorem (report : Option Bool) (data : Option Report) (env : Env) :
    (upload_json_report report data env).trace.posts.length ≤ 1 ∧
    ((upload_json_report report data env).trace.posts ≠ [] →
      (resolveConsent report env.userInput).1 = true) ∧
    (∀ p ∈ (upload_json_report report data env).trace.posts,
      p.url = "https://" ++ REPORT_URL ++ "/post/v2/" ∧
      p.contentType = "application/json" ∧
      ∃ ws, payloadWarnings p = some ws ∧ ws.Nodup) := by
  rcases posts_characterization report data env with h | ⟨hc, d, ws, _, _, h⟩
  · rw [h]
    exact ⟨by simp, fun hne => absurd rfl hne, by simp⟩
  · rw [h]
    refine ⟨by simp, fun _ => hc, ?_⟩
    intro p hp
    rw [List.mem_singleton] at hp
    subst hp
    exact ⟨rfl, rfl, Normalize ws, payloadWarnings_requests_post _ _ _,
      List.nodup_dedup ws⟩

/-- C8 witness: instantiation at a concrete consenting run with a
duplicated warning record. -/
theorem C8_witness :
    (upload_json_report (some true)
        (some [("warnings", RVal.warnList [cexW1, cexW1])])
        env200empty).trace.posts.length ≤ 1 ∧
    ((upload_json_report (some true)
        (some [("warnings", RVal.warnList [cexW1, cexW1])])
        env200empty).trace.posts ≠ [] →
      (resolveConsent (some true) env200empty.userInput).1 = true) ∧
    (∀ p ∈ (upload_json_report (some true)
        (some [("warnings", RVal.warnList [cexW1, cexW1])])
        env200empty).trace.posts,
      p.url = "https://" ++ REPORT_URL ++ "/post/v2/" ∧
      p.contentType = "application/json" ∧
      ∃ ws, payloadWarnings p = some ws ∧ ws.Nodup) :=
  C8_theorem (some true)
    (some [("warnings", RVal.warnList [cexW1, cexW1])]) env200empty

/-- C9: when consent resolves to yes and the payload has a well-typed
warnings entry, the submitter mutates the caller's report mapping in
place: afterwards its warnings key holds the deduplicated sequence and
every other key/value pair is unchanged. -/
theorem C9_theorem (report : Option Bool) (d : Report)
    (ws : List WarningRecord) (env : Env)
    (hc : (resolveConsent report env.userInput).1 = true)
    (hw : dictGet d "warnings" = some (.warnList ws)) :
    (upload_json_report report (some d) env).finalData =
      some (dictSet d "warnings" (.warnList (Normalize ws))) ∧
    dictGet (dictSet d "warnings" (.warnList (Normalize ws))) "warnings" =
      some (.warnList (Normalize ws)) ∧
    (∀ k, k ≠ "warnings" →
      dictGet (dictSet d "warnings" (.warnList (Normalize ws))) k =
        dictGet d k) := by
  refine ⟨?_, dictGet_dictSet_self d _ _, fun k hk => dictGet_dictSet_ne d _ k _ hk⟩
  by_cases hs : env.resp.status_code = 200
  · rcases hb : env.resp.jsonBody with _ | b <;>
      simp [upload_json_report, hc, hw, hs, hb]
  · simp [upload_json_report, hc, hw, hs]

/-- A sample payload with a duplicated warning record and one extra
field. -/
def cexData : Report :=
  [("warnings", RVal.warnList [cexW1, cexW1]), ("x", RVal.scalar (Scalar.int 5))]

/-- C9 witness: at the concrete payload `cexData`, the final mapping is
the in-place update with the deduplicated warnings, and the extra key
keeps its value. -/
theorem C9_witness :
    (upload_json_report (some true) (some cexData) env200empty).finalData =
      some (dictSet cexData "warnings" (.warnList (Normalize [cexW1, cexW1]))) ∧
    dictGet (dictSet cexData "warnings" (.warnList (Normalize [cexW1, cexW1])))
      "x" = dictGet cexData "x" :=
  ⟨(C9_theorem (some true) cexData [cexW1, cexW1] env200empty rfl rfl).1,
   (C9_theorem (some true) cexData [cexW1, cexW1] env200empty rfl rfl).2.2
     "x" (by decide)⟩

/-- C10: when consent resolves to no, the call returns immediately: the
payload binding is returned untouched (deduplication is skipped), there
is no POST, no console output beyond the consent prompt, and no exception
— in particular the call succeeds when the payload is absent. -/
theorem C10_theorem (report : Option Bool) (data : Option Report) (env : Env)
    (hc : (resolveConsent report env.userInput).1 = false) :
    upload_json_report report data env =
      ⟨⟨(resolveConsent report env.userInput).2, [], []⟩, data, none⟩ := by
  simp [upload_json_report, hc]

/-- C10 witness: explicit-no consent with an absent payload succeeds and
touches nothing. -/
theorem C10_witness :
    upload_json_report (some false) none env200empty =
      ⟨⟨[], [], []⟩, none, none⟩ :=
  C10_theorem (some false) none env200empty rfl
